import Mathlib

/-!
Verification of the klavis MCP adapters (Discord and Google Photos).

The Python sources under `mcp_servers/discord` and `mcp_servers/google_photos`
are shallowly embedded below.  JSON payloads are modelled by `JVal`; Python
exceptions by `PyErr`; a handler body is a value of `EffM α`, a pair of an
`Except PyErr α` result and the ordered list of upstream HTTP requests issued
while producing it.  The upstream service is an `Oracle` mapping each request
to its answer, so a handler is a pure function of its arguments and the oracle.
-/

namespace Klavis

/-- Decoded JSON values, also standing for the Python objects built from them
(dict, list, str, int, bool, None). -/
inductive JVal where
  | null
  | bool (b : Bool)
  | int (n : Int)
  | str (s : String)
  | arr (xs : List JVal)
  | obj (fields : List (String × JVal))
  deriving BEq, Repr, Inhabited

/-- Python truthiness of a decoded value: None, False, 0, empty string, empty
list and empty dict are falsy. -/
def JVal.truthy : JVal → Bool
  | .null => false
  | .bool b => b
  | .int n => n != 0
  | .str s => s ≠ ""
  | .arr xs => !xs.isEmpty
  | .obj fs => !fs.isEmpty

/-- Single-quote character, used to build Python repr strings. -/
def sq : String := String.singleton (Char.ofNat 39)

mutual

/-- Python str()/repr() of a decoded JSON value, as interpolated by f-strings
when the value is a dict or list (string escaping is not modelled; the values
involved here contain no quotes or control characters). -/
def pyRepr : JVal → String
  | .null => "None"
  | .bool true => "True"
  | .bool false => "False"
  | .int n => toString n
  | .str s => sq ++ s ++ sq
  | .arr xs => "[" ++ pyReprList xs ++ "]"
  | .obj fs => "\x7b" ++ pyReprFields fs ++ "\x7d"

/-- Comma-separated reprs of the elements of a list. -/
def pyReprList : List JVal → String
  | [] => ""
  | [x] => pyRepr x
  | x :: xs => pyRepr x ++ ", " ++ pyReprList xs

/-- Comma-separated reprs of the entries of a dict. -/
def pyReprFields : List (String × JVal) → String
  | [] => ""
  | [(k, v)] => sq ++ k ++ sq ++ ": " ++ pyRepr v
  | (k, v) :: fs => sq ++ k ++ sq ++ ": " ++ pyRepr v ++ ", " ++ pyReprFields fs

end

/-- Python str() as used by f-string interpolation: strings are inserted
verbatim, everything else by its repr. -/
def pyStr : JVal → String
  | .str s => s
  | v => pyRepr v

/-- Python exceptions raised by the embedded code. -/
inductive PyErr where
  | typeError (msg : String)
  | runtimeError (msg : String)
  | attributeError (msg : String)
  | valueError (msg : String)
  | keyError (key : String)
  | httpError (status : Nat) (content : String) (contentJson? : Option JVal)
  deriving BEq, Repr

/-- Python str(e) for the exceptions above; for googleapiclient HttpError the
textual form is not needed by any claim and is summarised. -/
def PyErr.str : PyErr → String
  | .typeError m => m
  | .runtimeError m => m
  | .attributeError m => m
  | .valueError m => m
  | .keyError k => sq ++ k ++ sq
  | .httpError status content _ => "HttpError " ++ toString status ++ ": " ++ content

/-- One upstream HTTP request as issued by an adapter: method, endpoint path
(with interpolated ids and query string), optional JSON body or parameter
map. -/
structure UpstreamReq where
  method : String
  endpoint : String
  body : Option JVal := none
  deriving BEq, Repr

/-- Raw upstream HTTP response: status, whether the Content-Type header names
JSON, the body text, and the result of parsing the body as JSON (`none` when
parsing would raise). -/
structure HttpResponse where
  status : Nat
  contentTypeJson : Bool
  rawText : String
  json? : Option JVal
  deriving Repr

/-- Answer of the upstream service to one request: an HTTP response, or a
transport-level failure (connection error, timeout). -/
inductive UpstreamAnswer where
  | response (r : HttpResponse)
  | networkFailure (msg : String)

/-- The upstream service, as a pure map from requests to answers. -/
def Oracle := UpstreamReq → UpstreamAnswer

/-- Handler effect: the result of a Python computation together with the list
of upstream requests it issued, in order. -/
def EffM (α : Type) : Type := Except PyErr α × List UpstreamReq

instance : Monad EffM where
  pure a := (.ok a, [])
  bind m f :=
    match m.1 with
    | .error e => (.error e, m.2)
    | .ok a => let n := f a; (n.1, m.2 ++ n.2)

/-- Raise a Python exception. -/
def pyRaise (e : PyErr) : EffM α := (.error e, [])

/-- A try/except catching every exception and recovering with a plain value. -/
def pyCatchAll (m : EffM α) (h : PyErr → α) : EffM α :=
  match m.1 with
  | .ok _ => m
  | .error e => (.ok (h e), m.2)

/-- A try/except whose handler is itself a computation. -/
def pyTry (m : EffM α) (h : PyErr → EffM α) : EffM α :=
  match m.1 with
  | .ok _ => m
  | .error e => let n := h e; (n.1, m.2 ++ n.2)

/-- Python dict .get(key): the first entry with the given key, or None. Raises
AttributeError when the receiver is not a dict (lists, strings, ints and None
have no .get attribute). -/
def pyGet (v : JVal) (key : String) : Except PyErr JVal :=
  match v with
  | .obj fs =>
      match fs.lookup key with
      | some w => .ok w
      | none => .ok .null
  | _ => .error (.attributeError ("object has no attribute get: " ++ key))

/-- Python dict .get(key, default). -/
def pyGetD (v : JVal) (key : String) (dflt : JVal) : Except PyErr JVal :=
  match v with
  | .obj fs =>
      match fs.lookup key with
      | some w => .ok w
      | none => .ok dflt
  | _ => .error (.attributeError ("object has no attribute get: " ++ key))

/-- Python `key in v` membership test: dict keys, list elements, or substring
for strings; raises TypeError otherwise. -/
def pyIn (key : String) (v : JVal) : Except PyErr Bool :=
  match v with
  | .obj fs => .ok (fs.any (fun kv => kv.1 == key))
  | .arr xs => .ok (xs.any (fun x => x == .str key))
  | .str s => .ok (decide (List.IsInfix key.toList s.toList))
  | _ => .error (.typeError "argument of type is not iterable")

/-- Python iteration `for x in v`: list elements, dict keys, or the characters
of a string; raises TypeError otherwise. -/
def pyIter (v : JVal) : Except PyErr (List JVal) :=
  match v with
  | .arr xs => .ok xs
  | .obj fs => .ok (fs.map (fun kv => .str kv.1))
  | .str s => .ok (s.toList.map (fun c => .str (String.singleton c)))
  | _ => .error (.typeError "object is not iterable")

/-- Lift a pure Python step (one that issues no requests) into `EffM`. -/
def liftE (x : Except PyErr α) : EffM α := (x, [])

/-- Truthiness of an optional string argument, as tested by `if topic:` in
Python (absent and empty both falsy). -/
def optStrTruthy : Option String → Bool
  | none => false
  | some s => s ≠ ""

/-- Python dict subscript v[key]: KeyError when the key is missing, TypeError
when the receiver does not support string subscripts. -/
def pyGetItem (v : JVal) (key : String) : Except PyErr JVal :=
  match v with
  | .obj fs =>
      match fs.lookup key with
      | some w => .ok w
      | none => .error (.keyError key)
  | _ => .error (.typeError "object is not subscriptable")

/-- Python dict assignment v[key] = val: replace an existing entry or append
a new one. -/
def pySetItem (v : JVal) (key : String) (val : JVal) : Except PyErr JVal :=
  match v with
  | .obj fs =>
      .ok (.obj (if fs.any (fun kv => kv.1 == key) then
        fs.map (fun kv => if kv.1 == key then (kv.1, val) else kv)
      else fs ++ [(key, val)]))
  | _ => .error (.typeError "object does not support item assignment")

/-- Whether an obj carries the given key. -/
def JVal.hasKey (v : JVal) (key : String) : Bool :=
  match v with
  | .obj fs => fs.any (fun kv => kv.1 == key)
  | _ => false

end Klavis

namespace Klavis.Discord

open Klavis

/-! ## mcp_servers/discord/tools/messages.py: normalize_emoji -/

/-- Core of the regex match `re.match` against the custom-emoji pattern
(angle bracket, optional animation marker, a nonempty run of characters other
than the colon, a colon, a nonempty digit run, closing angle bracket; trailing
characters are ignored because re.match anchors only at the start).  Returns
the two captured groups. -/
def stripOpenMarker (cs : List Char) : Option (List Char) :=
  match cs with
  | '<' :: 'a' :: ':' :: tl => some tl
  | '<' :: ':' :: tl => some tl
  | _ => none

/-- After the opening marker: a nonempty run of non-colon characters (the
name group), a colon, a nonempty digit run (the id group), then the closing
bracket; anything after it is ignored. -/
def matchNameId (tl : List Char) : Option (List Char × List Char) :=
  let name := tl.takeWhile (fun c => c ≠ ':')
  let rest₁ := tl.dropWhile (fun c => c ≠ ':')
  if name.isEmpty then none
  else if rest₁.head? == some ':' then
    let rest₂ := rest₁.tail
    let digits := rest₂.takeWhile Char.isDigit
    let rest₃ := rest₂.dropWhile Char.isDigit
    if digits.isEmpty then none
    else if rest₃.head? == some '>' then some (name, digits)
    else none
  else none

def matchCustomEmoji (cs : List Char) : Option (List Char × List Char) :=
  (stripOpenMarker cs).bind matchNameId

/-- Character-list core of `normalize_emoji`: if the input starts with an
opening and ends with a closing angle bracket and the pattern matches, return
the captured `name:id`; otherwise return the input unchanged. -/
def normalizeEmojiCore (cs : List Char) : List Char :=
  if (cs.head? == some '<') && (cs.getLast? == some '>') then
    match matchCustomEmoji cs with
    | some (name, digits) => name ++ ':' :: digits
    | none => cs
  else cs

/-- normalize_emoji from messages.py: reduce an angle-bracket wrapped custom
emoji to its `name:id` form, and return every other input unchanged. -/
def normalize_emoji (emoji : String) : String :=
  String.mk (normalizeEmojiCore emoji.toList)


/-! ## mcp_servers/discord/tools/auth.py: DiscordAuth.make_request -/

/-- The Discord credential/base-URL pair held by DiscordAuth (token from
DISCORD_TOKEN, base from DISCORD_API_BASE). -/
structure DiscordAuth where
  token : String
  api_base : String
  deriving Repr

/-- Response processing of DiscordAuth.make_request, applied to the answer the
upstream gave for the single request issued.  The whole Python body sits in
one try block, so the RuntimeError raised for a status of 400 or more is
itself caught by the final generic except clause and re-wrapped into the
Unexpected-error form; only the network-error branch escapes unwrapped,
because it is raised from inside an except clause. -/
def discordResponseResult (method url : String) (expect_empty_response : Bool)
    (ans : UpstreamAnswer) : Except PyErr JVal :=
  match ans with
  | .networkFailure m =>
      .error (.runtimeError
        ("Network error during API call to " ++ method ++ " " ++ url ++ ": " ++ m))
  | .response r =>
      let raw_text := r.rawText
      let inner : Except PyErr JVal :=
        if r.status ≥ 400 then
          let error_body : String :=
            if r.contentTypeJson then
              match r.json? with
              | some j => pyStr j
              | none => raw_text
            else raw_text
          .error (.runtimeError
            ("Discord API Error (" ++ toString r.status ++ "): " ++ error_body))
        else if expect_empty_response then
          if r.status = 204 then .ok .null
          else if r.contentTypeJson then
            match r.json? with
            | some j => .ok j
            | none => .error (.valueError "Expecting value")
          else .ok (.obj [("raw_content", .str raw_text)])
        else
          if r.contentTypeJson then
            match r.json? with
            | some j => .ok j
            | none => .error (.valueError "Expecting value")
          else .ok (.obj [("raw_content", .str raw_text)])
      match inner with
      | .ok v => .ok v
      | .error e => .error (.runtimeError
          ("Unexpected error during API call to " ++ method ++ " " ++ url ++ ": " ++ e.str))

/-- DiscordAuth.make_request: issue one authenticated request against
api_base + endpoint and normalise the response as above. -/
def discord_make_request (auth : DiscordAuth) (o : Oracle) (method endpoint : String)
    (json_data : Option JVal := none) (expect_empty_response : Bool := false) :
    EffM JVal :=
  let url := auth.api_base ++ endpoint
  let req : UpstreamReq := { method := method, endpoint := endpoint, body := json_data }
  (discordResponseResult method url expect_empty_response (o req), [req])

/-! ## urllib.parse.quote with safe set empty -/

/-- Uppercase hexadecimal digit of a value below 16. -/
def hexDigit (n : Nat) : Char :=
  if n < 10 then Char.ofNat (48 + n) else Char.ofNat (55 + n)

/-- The UTF-8 bytes of one character. -/
def utf8Bytes (c : Char) : List Nat :=
  let n := c.toNat
  if n < 0x80 then [n]
  else if n < 0x800 then [0xC0 + n / 64, 0x80 + n % 64]
  else if n < 0x10000 then
    [0xE0 + n / 4096, 0x80 + (n / 64) % 64, 0x80 + n % 64]
  else
    [0xF0 + n / 262144, 0x80 + (n / 4096) % 64, 0x80 + (n / 64) % 64, 0x80 + n % 64]

/-- Percent-quote one UTF-8 byte, keeping only the unreserved characters
(letters, digits, underscore, dot, tilde, hyphen), as urllib.parse.quote does
with an empty safe set. -/
def urlQuoteByte (b : Nat) : String :=
  if (0x41 ≤ b && b ≤ 0x5A) || (0x61 ≤ b && b ≤ 0x7A) || (0x30 ≤ b && b ≤ 0x39)
      || b == 0x5F || b == 0x2E || b == 0x7E || b == 0x2D then
    String.singleton (Char.ofNat b)
  else
    "%" ++ String.singleton (hexDigit (b / 16)) ++ String.singleton (hexDigit (b % 16))

/-- urllib.parse.quote(s, safe empty): quote every UTF-8 byte of the string. -/
def urlQuote (s : String) : String :=
  String.join ((s.toList.flatMap utf8Bytes).map urlQuoteByte)

/-! ## mcp_servers/discord/tools/servers.py -/

/-- Projection of one member entry inside ServerTool.list_members. -/
def format_member (member : JVal) : Except PyErr JVal := do
  let user ← pyGetD member "user" (.obj [])
  let id_ ← pyGet user "id"
  let username ← pyGet user "username"
  let discriminator ← pyGet user "discriminator"
  let global_name ← pyGet user "global_name"
  let nick ← pyGet member "nick"
  let joined_at ← pyGet member "joined_at"
  let roles ← pyGetD member "roles" (.arr [])
  pure (.obj [("id", id_), ("username", username), ("discriminator", discriminator),
    ("global_name", global_name), ("nick", nick), ("joined_at", joined_at),
    ("roles", roles)])

/-- ServerTool.list_members: clamp the limit into the range 1 to 1000, issue
the members request, and project each entry. -/
def list_members (auth : DiscordAuth) (o : Oracle) (server_id : String)
    (limit : Int := 100) : EffM JVal := do
  let clamped_limit : Int := max 1 (min limit 1000)
  let endpoint := "/guilds/" ++ server_id ++ "/members?limit=" ++ toString clamped_limit
  let members_data ← discord_make_request auth o "GET" endpoint
  let members ← liftE (pyIter members_data)
  let formatted ← liftE (members.mapM format_member)
  pure (.arr formatted)

/-! ## mcp_servers/discord/tools/messages.py: read_messages -/

/-- Projection of one message entry inside MessageTool.read_messages. -/
def format_message (msg : JVal) : Except PyErr JVal := do
  let author ← pyGetD msg "author" (.obj [])
  let id_ ← pyGet msg "id"
  let content ← pyGet msg "content"
  let timestamp ← pyGet msg "timestamp"
  let aid ← pyGet author "id"
  let ausername ← pyGet author "username"
  let adiscriminator ← pyGet author "discriminator"
  let aglobal ← pyGet author "global_name"
  let abot ← pyGetD author "bot" (.bool false)
  let reactions ← pyGetD msg "reactions" (.arr [])
  pure (.obj [("id", id_), ("content", content), ("timestamp", timestamp),
    ("author", .obj [("id", aid), ("username", ausername),
      ("discriminator", adiscriminator), ("global_name", aglobal), ("is_bot", abot)]),
    ("reactions", reactions)])

/-- MessageTool.read_messages: clamp the limit into the range 1 to 100, issue
the messages request, and project each entry. -/
def read_messages (auth : DiscordAuth) (o : Oracle) (channel_id : String)
    (limit : Int := 50) : EffM JVal := do
  let clamped_limit : Int := max 1 (min limit 100)
  let endpoint := "/channels/" ++ channel_id ++ "/messages?limit=" ++ toString clamped_limit
  let messages_data ← discord_make_request auth o "GET" endpoint
  let messages ← liftE (pyIter messages_data)
  let formatted ← liftE (messages.mapM format_message)
  pure (.arr formatted)

/-! ## mcp_servers/discord/tools/channels.py: create_text_channel -/

/-- The JSON body ChannelTool.create_text_channel sends upstream: name and
text-channel type always, topic and parent_id only when truthy. -/
def createTextChannelBody (name : String) (topic category_id : Option String) : JVal :=
  .obj ([("name", .str name), ("type", .int 0)]
    ++ (match topic with
        | some t => if t ≠ "" then [("topic", .str t)] else []
        | none => [])
    ++ (match category_id with
        | some c => if c ≠ "" then [("parent_id", .str c)] else []
        | none => []))

/-- ChannelTool.create_text_channel: build the body, POST it, and project the
response. -/
def create_text_channel (auth : DiscordAuth) (o : Oracle) (server_id name : String)
    (topic : Option String := none) (category_id : Option String := none) :
    EffM JVal := do
  let endpoint := "/guilds/" ++ server_id ++ "/channels"
  let channel_data := createTextChannelBody name topic category_id
  let response ← discord_make_request auth o "POST" endpoint (some channel_data)
  let id_ ← pyGet response "id" |> liftE
  let nm ← pyGet response "name" |> liftE
  let tp ← pyGet response "topic" |> liftE
  let pid ← pyGet response "parent_id" |> liftE
  pure (.obj [("id", id_), ("name", nm), ("topic", tp), ("parent_id", pid)])

/-! ## mcp_servers/discord/tools/messages.py: add_reaction and
add_multiple_reactions -/

/-- The dict add_reaction and remove_reaction return: success flag, either an
error string or a success message, and the echoed identifying fields. -/
structure ReactionOutcome where
  success : Bool
  error : Option String
  message : Option String
  emoji : String
  message_id : String
  channel_id : String
  deriving BEq, Repr, DecidableEq

/-- The structured failure dict built by every except branch of add_reaction. -/
def reactionFailure (emoji message_id channel_id err : String) : ReactionOutcome :=
  { success := false, error := some err, message := none,
    emoji := emoji, message_id := message_id, channel_id := channel_id }

/-- Python str.isdigit: nonempty and every character a digit. -/
def pyIsDigitStr (s : String) : Bool :=
  !s.toList.isEmpty && s.toList.all Char.isDigit

/-- The part of a string after its last colon, which is the second element of
rsplit with separator colon and maxsplit one. -/
def afterLastColon (s : String) : String :=
  String.mk ((s.toList.reverse.takeWhile (fun c => c ≠ ':')).reverse)

/-- Custom-emoji detection inside add_reaction: when a colon is present,
rsplit at the last colon always yields exactly two parts, and the emoji is
custom when the second part is a nonempty digit string; the returned string is
that digit id. -/
def detectCustomEmoji (normalized : String) : Option String :=
  if normalized.toList.contains ':' then
    let back := afterLastColon normalized
    if pyIsDigitStr back then some back else none
  else none

/-- The channel-info request issued first when validating a custom emoji. -/
def channelInfoReq (channel_id : String) : UpstreamReq :=
  { method := "GET", endpoint := "/channels/" ++ channel_id, body := none }

/-- Inner try block of add_reaction for a custom emoji: fetch the channel to
learn its guild, fetch the guild emoji list, and require the custom id to be
among the listed ids; any failure raises and is turned into a structured
failure by the caller. -/
def validate_custom_emoji (auth : DiscordAuth) (o : Oracle)
    (channel_id custom_id : String) : EffM Unit := do
  let channel_info ← discord_make_request auth o "GET" ("/channels/" ++ channel_id)
  let guild_id ← liftE (pyGet channel_info "guild_id")
  if guild_id.truthy = false then
    pyRaise (.runtimeError
      "Custom emoji requires a guild channel (no guild_id found for channel)")
  else do
    let guild_emojis ← discord_make_request auth o "GET"
      ("/guilds/" ++ pyStr guild_id ++ "/emojis")
    let elems ← liftE (pyIter guild_emojis)
    let emoji_ids ← liftE (elems.mapM (fun e => pyGet e "id"))
    if (emoji_ids.any (fun v => v == .str custom_id)) = false then
      pyRaise (.runtimeError ("Custom emoji id " ++ custom_id ++ " not found in guild "
        ++ pyStr guild_id ++ " or bot lacks access to it"))
    else pure ()

/-- Tail of add_reaction after validation: quote the normalized emoji, PUT the
reaction, and return the success dict. -/
def attempt_reaction (auth : DiscordAuth) (o : Oracle)
    (channel_id message_id emoji normalized_emoji : String) : EffM ReactionOutcome := do
  let encoded_emoji := urlQuote normalized_emoji
  let endpoint := "/channels/" ++ channel_id ++ "/messages/" ++ message_id
    ++ "/reactions/" ++ encoded_emoji ++ "/@me"
  let _ ← discord_make_request auth o "PUT" endpoint none true
  pure { success := true, error := none,
         message := some ("Successfully added reaction " ++ emoji ++ " to message "
           ++ message_id),
         emoji := emoji, message_id := message_id, channel_id := channel_id }

/-- MessageTool.add_reaction.  The outer try/except turns any escaped
exception into the structured failure dict, so the function is total; for a
custom emoji the inner try/except returns the structured failure without
attempting the reaction request. -/
def add_reaction (auth : DiscordAuth) (o : Oracle)
    (channel_id message_id emoji : String) : EffM ReactionOutcome :=
  pyCatchAll
    (let normalized_emoji := normalize_emoji emoji
     match detectCustomEmoji normalized_emoji with
     | some custom_id =>
        (match validate_custom_emoji auth o channel_id custom_id with
         | (.error e, lg) =>
            (.ok (reactionFailure emoji message_id channel_id e.str), lg)
         | (.ok _, lg) =>
            let rest := attempt_reaction auth o channel_id message_id emoji
              normalized_emoji
            (rest.1, lg ++ rest.2))
     | none => attempt_reaction auth o channel_id message_id emoji normalized_emoji)
    (fun e => reactionFailure emoji message_id channel_id e.str)

/-- One entry of successful_reactions. -/
structure SuccessEntry where
  emoji : String
  deriving BEq, Repr, DecidableEq

/-- One entry of failed_reactions. -/
structure FailEntry where
  emoji : String
  error : String
  deriving BEq, Repr, DecidableEq

/-- Aggregate result of add_multiple_reactions. -/
structure MultiReactionOutcome where
  success : Bool
  message_id : String
  channel_id : String
  successful_reactions : List SuccessEntry
  failed_reactions : List FailEntry
  summary : String
  deriving BEq, Repr, DecidableEq

/-- The per-emoji loop of add_multiple_reactions: apply add_reaction to each
emoji in order, recording a success or failure entry per emoji; the except arm
mirrors the Python clause that would catch an exception escaping add_reaction
(add_reaction is total here, so that arm is unreachable but kept faithful). -/
def add_multiple_loop (auth : DiscordAuth) (o : Oracle)
    (channel_id message_id : String) :
    List String → (List SuccessEntry × List FailEntry) × List UpstreamReq
  | [] => (([], []), [])
  | e :: rest =>
    let r := add_reaction auth o channel_id message_id e
    let step : List SuccessEntry × List FailEntry → List SuccessEntry × List FailEntry :=
      match r.1 with
      | .ok result =>
          if result.success then (fun p => (⟨e⟩ :: p.1, p.2))
          else (fun p => (p.1, ⟨e, result.error.getD "Unknown error"⟩ :: p.2))
      | .error exc => (fun p => (p.1, ⟨e, exc.str⟩ :: p.2))
    let tail := add_multiple_loop auth o channel_id message_id rest
    (step tail.1, r.2 ++ tail.2)

/-- MessageTool.add_multiple_reactions: run the loop and aggregate, with
success exactly when no emoji failed. -/
def add_multiple_reactions (auth : DiscordAuth) (o : Oracle)
    (channel_id message_id : String) (emojis : List String) :
    MultiReactionOutcome × List UpstreamReq :=
  let ((results, errors), lg) := add_multiple_loop auth o channel_id message_id emojis
  ({ success := errors.length == 0,
     message_id := message_id, channel_id := channel_id,
     successful_reactions := results, failed_reactions := errors,
     summary := "Added " ++ toString results.length ++ " reactions successfully, "
       ++ toString errors.length ++ " failed" }, lg)

end Klavis.Discord

namespace Klavis.GPhotos

open Klavis

/-! ## mcp_servers/google_photos: auth context and service construction -/

/-- get_auth_token from google_photos/server.py (tools/base.py has the same
definition): read the per-request context variable, raising RuntimeError only
when the variable was never set for this call. -/
def get_auth_token (ctx : Option String) : Except PyErr String :=
  match ctx with
  | some t => .ok t
  | none => .error (.runtimeError "Authentication token not found in request context")

/-- Token extraction in handle_streamable_http (server.py): read the
x-auth-token header when present and set the context variable to the header
value or the empty string, so the context is always set during the call. -/
def streamableHttpAuthCtx (headers : List (String × String)) : Option String :=
  let auth_token := headers.lookup "x-auth-token"
  some (auth_token.getD "")

/-- Parameter names of utils.get_photos_service: five required positional
parameters, none with a default. -/
def getPhotosServiceParams : List String :=
  ["access_token", "refresh_token", "client_id", "client_secret", "token_uri"]

/-- The credentials object utils.get_photos_service builds when it is reached
with all five arguments. -/
structure GoogleCredentials where
  token : String
  refresh_token : String
  client_id : String
  client_secret : String
  token_uri : String
  scopes : List String
  deriving Repr

/-- Python call semantics for get_photos_service: supplying fewer positional
arguments than the five required parameters raises TypeError before the
function body runs; with all five, the credentials client is built. -/
def callGetPhotosService (args : List String) : Except PyErr GoogleCredentials :=
  if args.length < getPhotosServiceParams.length then
    .error (.typeError ("get_photos_service() missing required positional arguments: "
      ++ String.intercalate ", " (getPhotosServiceParams.drop args.length)))
  else
    match args with
    | a :: r :: ci :: cs :: tu :: _ =>
        .ok { token := a, refresh_token := r, client_id := ci, client_secret := cs,
              token_uri := tu,
              scopes := ["https://www.googleapis.com/auth/photoslibrary.appendonly",
                "https://www.googleapis.com/auth/photoslibrary.readonly.appcreateddata"] }
    | _ => .error (.typeError "get_photos_service() missing required positional arguments")

/-- request.execute() on a googleapiclient request: a status of 400 or more
raises HttpError carrying the response content; otherwise the decoded body is
returned. -/
def googleExecute (o : Oracle) (req : UpstreamReq) : EffM JVal :=
  ((match o req with
    | .networkFailure m => .error (.runtimeError ("Network error: " ++ m))
    | .response r =>
        if r.status ≥ 400 then .error (.httpError r.status r.rawText r.json?)
        else
          match r.json? with
          | some j => .ok j
          | none => .error (.valueError "Expecting value")), [req])

/-! ## mcp_servers/google_photos/utils.py: formatters -/

/-- format_photo_metadata from utils.py. -/
def format_photo_metadata (photo : JVal) (include_location : Bool := true) :
    Except PyErr JVal := do
  let id_ ← pyGet photo "id"
  let filename ← pyGet photo "filename"
  let description ← pyGetD photo "description" (.str "")
  let productUrl ← pyGet photo "productUrl"
  let baseUrl ← pyGet photo "baseUrl"
  let mimeType ← pyGet photo "mimeType"
  let inPhoto ← pyIn "mediaMetadata" photo
  let mm ←
    if inPhoto then do
      let media ← pyGetItem photo "mediaMetadata"
      let creationTime ← pyGet media "creationTime"
      let width ← pyGet media "width"
      let height ← pyGet media "height"
      let inP ← pyIn "photo" media
      let pfield ←
        if inP then do
          let photo_meta ← pyGetItem media "photo"
          let cameraMake ← pyGet photo_meta "cameraMake"
          let cameraModel ← pyGet photo_meta "cameraModel"
          let focalLength ← pyGet photo_meta "focalLength"
          let apertureFNumber ← pyGet photo_meta "apertureFNumber"
          let isoEquivalent ← pyGet photo_meta "isoEquivalent"
          let exposureTime ← pyGet photo_meta "exposureTime"
          pure [("photo", JVal.obj [("cameraMake", cameraMake),
            ("cameraModel", cameraModel), ("focalLength", focalLength),
            ("apertureFNumber", apertureFNumber), ("isoEquivalent", isoEquivalent),
            ("exposureTime", exposureTime)])]
        else pure []
      let inV ← pyIn "video" media
      let vfield ←
        if inV then do
          let video_meta ← pyGetItem media "video"
          let fps ← pyGet video_meta "fps"
          let status ← pyGet video_meta "status"
          pure [("video", JVal.obj [("fps", fps), ("status", status)])]
        else pure []
      pure (JVal.obj ([("creationTime", creationTime), ("width", width),
        ("height", height)] ++ pfield ++ vfield))
    else pure (JVal.obj [])
  let locfield ←
    if include_location && inPhoto then do
      let media ← pyGetItem photo "mediaMetadata"
      let location ← pyGet media "location"
      if location.truthy then do
        let locationName ← pyGet location "locationName"
        let latlng ← pyGet location "latlng"
        pure [("location", JVal.obj [("locationName", locationName),
          ("latlng", latlng)])]
      else pure []
    else pure []
  pure (.obj ([("id", id_), ("filename", filename), ("description", description),
    ("productUrl", productUrl), ("baseUrl", baseUrl), ("mimeType", mimeType),
    ("mediaMetadata", mm)] ++ locfield))

/-- format_album_metadata from utils.py. -/
def format_album_metadata (album : JVal) : Except PyErr JVal := do
  let id_ ← pyGet album "id"
  let title ← pyGet album "title"
  let productUrl ← pyGet album "productUrl"
  let mediaItemsCount ← pyGet album "mediaItemsCount"
  let coverPhotoBaseUrl ← pyGet album "coverPhotoBaseUrl"
  let coverPhotoMediaItemId ← pyGet album "coverPhotoMediaItemId"
  let isWriteable ← pyGetD album "isWriteable" (.bool false)
  let shareInfo ← pyGetD album "shareInfo" (.obj [])
  pure (.obj [("id", id_), ("title", title), ("productUrl", productUrl),
    ("mediaItemsCount", mediaItemsCount), ("coverPhotoBaseUrl", coverPhotoBaseUrl),
    ("coverPhotoMediaItemId", coverPhotoMediaItemId), ("isWriteable", isWriteable),
    ("shareInfo", shareInfo)])

/-- The size-code to URL-suffix table of get_photo_url_with_size. -/
def size_params : List (String × String) :=
  [("s", "=s150"), ("m", "=s400"), ("l", "=s1024"), ("d", "=d")]

/-- get_photo_url_with_size from utils.py: append the suffix for the size
code, defaulting to the medium suffix for unknown codes. -/
def get_photo_url_with_size (base_url size : String) : String :=
  base_url ++ ((size_params.lookup size).getD "=s400")

/-- build_search_filters from utils.py. -/
def build_search_filters (location_name : Option String := none)
    (content_categories : Option (List String) := none)
    (media_types : Option (List String) := none)
    (include_archived : Bool := false) : JVal :=
  let cf1 : List (String × JVal) :=
    if optStrTruthy location_name then [("excludedContentCategories", .arr [])] else []
  let cf2 : List (String × JVal) :=
    match content_categories with
    | some cats =>
        if !cats.isEmpty then
          [("includedContentCategories", .arr (cats.map JVal.str))]
        else []
    | none => []
  let contentFilter : List (String × JVal) :=
    if cf1.isEmpty && cf2.isEmpty then [] else [("contentFilter", .obj (cf1 ++ cf2))]
  let mt : List (String × JVal) :=
    match media_types with
    | some ts =>
        if !ts.isEmpty then
          [("mediaTypeFilter", .obj [("mediaTypes", .arr (ts.map JVal.str))])]
        else []
    | none => []
  let ia : List (String × JVal) :=
    if include_archived then [("includeArchivedMedia", .bool true)] else []
  .obj (contentFilter ++ mt ++ ia)

/-- The base64 alphabet. -/
def b64Alphabet : List Char :=
  "ABCDEFGHIJKLMNOPQRSTUVWXYZabcdefghijklmnopqrstuvwxyz0123456789+/".toList

/-- One base64 alphabet character. -/
def b64Char (n : Nat) : Char := b64Alphabet.getD n 'A'

/-- Standard base64 of a byte list, as base64.b64encode produces. -/
def base64Encode : List Nat → String
  | [] => ""
  | [a] =>
    String.mk [b64Char (a / 4), b64Char ((a % 4) * 16)] ++ "=="
  | [a, b] =>
    String.mk [b64Char (a / 4), b64Char ((a % 4) * 16 + b / 16),
      b64Char ((b % 16) * 4)] ++ "="
  | a :: b :: c :: rest =>
    String.mk [b64Char (a / 4), b64Char ((a % 4) * 16 + b / 16),
      b64Char ((b % 16) * 4 + c / 64), b64Char (c % 64)]
      ++ base64Encode rest

/-- download_photo_as_base64 from utils.py: fetch the URL, fail on an error
status, and return the body base64-encoded; any failure is wrapped into a
RuntimeError. -/
def download_photo_as_base64 (o : Oracle) (photo_url : String) : EffM String :=
  let req : UpstreamReq := { method := "GET", endpoint := photo_url, body := none }
  ((match o req with
    | .networkFailure m => .error (.runtimeError ("Failed to download photo: " ++ m))
    | .response r =>
        if r.status ≥ 400 then
          .error (.runtimeError
            ("Failed to download photo: HTTPError " ++ toString r.status))
        else .ok (base64Encode (r.rawText.toList.flatMap Discord.utf8Bytes))), [req])

/-! ## mcp_servers/google_photos/server.py: Library-group handlers -/

/-- The except HttpError clause shared verbatim by every Library handler in
server.py: decode the error content as JSON (a decode failure raises and
propagates, there is no inner try), extract the nested error message with the
Unknown-error default, and raise the uniform RuntimeError format; any other
exception is re-raised unchanged by the second except clause. -/
def libraryHttpErrorWrap (m : EffM α) : EffM α :=
  pyTry m (fun e =>
    match e with
    | .httpError status _content json? =>
        (match json? with
         | none => pyRaise (.valueError "Expecting value")
         | some error_detail =>
            match (do
              let err ← pyGetD error_detail "error" (.obj [])
              pyGetD err "message" (.str "Unknown error")) with
            | .error e2 => pyRaise e2
            | .ok msg => pyRaise (.runtimeError ("Google Photos API Error ("
                ++ toString status ++ "): " ++ pyStr msg)))
    | other => pyRaise other)

/-- search_photos from server.py.  The query is only logged; the service
constructor is invoked with the access token as its single argument. -/
def search_photos (ctx : Option String) (o : Oracle) (_query : String)
    (page_size : Int := 25) (page_token : Option String := none)
    (include_location : Bool := true) : EffM JVal :=
  libraryHttpErrorWrap (do
    let access_token ← liftE (get_auth_token ctx)
    let _service ← liftE (callGetPhotosService [access_token])
    let request_body := JVal.obj
      ([("pageSize", .int (min page_size 100)), ("filters", build_search_filters)]
        ++ (if optStrTruthy page_token then [("pageToken", .str (page_token.getD ""))]
            else []))
    let response ← googleExecute o
      { method := "POST", endpoint := "library:mediaItems.search",
        body := some request_body }
    let items ← liftE (pyGetD response "mediaItems" (.arr []))
    let elems ← liftE (pyIter items)
    let photos ← liftE (elems.mapM (fun item =>
      format_photo_metadata item include_location))
    let nextPageToken ← liftE (pyGet response "nextPageToken")
    pure (.obj [("photos", .arr photos), ("nextPageToken", nextPageToken),
      ("totalCount", .int photos.length)]))

/-- search_photos_by_location from server.py: same request with a location
filter, keeping only items that carry location metadata. -/
def search_photos_by_location (ctx : Option String) (o : Oracle)
    (location_name : String) (page_size : Int := 25)
    (page_token : Option String := none) : EffM JVal :=
  libraryHttpErrorWrap (do
    let access_token ← liftE (get_auth_token ctx)
    let _service ← liftE (callGetPhotosService [access_token])
    let request_body := JVal.obj
      ([("pageSize", .int (min page_size 100)),
        ("filters", build_search_filters (some location_name))]
        ++ (if optStrTruthy page_token then [("pageToken", .str (page_token.getD ""))]
            else []))
    let response ← googleExecute o
      { method := "POST", endpoint := "library:mediaItems.search",
        body := some request_body }
    let items ← liftE (pyGetD response "mediaItems" (.arr []))
    let elems ← liftE (pyIter items)
    let photos ← liftE (elems.foldlM (fun acc item => do
      let hasMM ← pyIn "mediaMetadata" item
      if hasMM then do
        let mm ← pyGetItem item "mediaMetadata"
        let hasLoc ← pyIn "location" mm
        if hasLoc then do
          let f ← format_photo_metadata item true
          pure (acc ++ [f])
        else pure acc
      else pure acc) [])
    let nextPageToken ← liftE (pyGet response "nextPageToken")
    pure (.obj [("photos", .arr photos), ("nextPageToken", nextPageToken),
      ("totalCount", .int photos.length)]))

/-- get_photo from server.py. -/
def get_photo (ctx : Option String) (o : Oracle) (photo_id : String)
    (include_base64 : Bool := false) (include_location : Bool := true) : EffM JVal :=
  libraryHttpErrorWrap (do
    let access_token ← liftE (get_auth_token ctx)
    let _service ← liftE (callGetPhotosService [access_token])
    let response ← googleExecute o
      { method := "GET", endpoint := "library:mediaItems.get/" ++ photo_id,
        body := none }
    let photo ← liftE (format_photo_metadata response include_location)
    if include_base64 then do
      let baseUrl ← liftE (pyGetD response "baseUrl" (.str ""))
      let photo_url := get_photo_url_with_size (pyStr baseUrl) "m"
      let base64_data ← download_photo_as_base64 o photo_url
      let photo2 ← liftE (pySetItem photo "base64Data" (.str base64_data))
      pure photo2
    else pure photo)

/-- get_photo_url from server.py. -/
def get_photo_url (ctx : Option String) (o : Oracle) (photo_id : String)
    (size : String := "m") : EffM JVal :=
  libraryHttpErrorWrap (do
    let access_token ← liftE (get_auth_token ctx)
    let _service ← liftE (callGetPhotosService [access_token])
    let response ← googleExecute o
      { method := "GET", endpoint := "library:mediaItems.get/" ++ photo_id,
        body := none }
    let base_url ← liftE (pyGetD response "baseUrl" (.str ""))
    let photo_url := get_photo_url_with_size (pyStr base_url) size
    pure (.obj [("photoUrl", .str photo_url), ("baseUrl", base_url),
      ("size", .str size)]))

/-- list_albums from server.py: page size capped at 50 before the request. -/
def list_albums (ctx : Option String) (o : Oracle) (page_size : Int := 20)
    (page_token : Option String := none) : EffM JVal :=
  libraryHttpErrorWrap (do
    let access_token ← liftE (get_auth_token ctx)
    let _service ← liftE (callGetPhotosService [access_token])
    let params := JVal.obj
      ([("pageSize", .int (min page_size 50))]
        ++ (if optStrTruthy page_token then [("pageToken", .str (page_token.getD ""))]
            else []))
    let response ← googleExecute o
      { method := "GET", endpoint := "library:albums.list", body := some params }
    let items ← liftE (pyGetD response "albums" (.arr []))
    let elems ← liftE (pyIter items)
    let albums ← liftE (elems.mapM format_album_metadata)
    let nextPageToken ← liftE (pyGet response "nextPageToken")
    pure (.obj [("albums", .arr albums), ("nextPageToken", nextPageToken),
      ("totalCount", .int albums.length)]))

/-- get_album from server.py. -/
def get_album (ctx : Option String) (o : Oracle) (album_id : String) : EffM JVal :=
  libraryHttpErrorWrap (do
    let access_token ← liftE (get_auth_token ctx)
    let _service ← liftE (callGetPhotosService [access_token])
    let response ← googleExecute o
      { method := "GET", endpoint := "library:albums.get/" ++ album_id, body := none }
    let album ← liftE (format_album_metadata response)
    pure album)

/-- list_album_photos from server.py. -/
def list_album_photos (ctx : Option String) (o : Oracle) (album_id : String)
    (page_size : Int := 25) (page_token : Option String := none)
    (include_location : Bool := true) : EffM JVal :=
  libraryHttpErrorWrap (do
    let access_token ← liftE (get_auth_token ctx)
    let _service ← liftE (callGetPhotosService [access_token])
    let request_body := JVal.obj
      ([("pageSize", .int (min page_size 100)), ("albumId", .str album_id)]
        ++ (if optStrTruthy page_token then [("pageToken", .str (page_token.getD ""))]
            else []))
    let response ← googleExecute o
      { method := "POST", endpoint := "library:mediaItems.search",
        body := some request_body }
    let items ← liftE (pyGetD response "mediaItems" (.arr []))
    let elems ← liftE (pyIter items)
    let photos ← liftE (elems.mapM (fun item =>
      format_photo_metadata item include_location))
    let nextPageToken ← liftE (pyGet response "nextPageToken")
    pure (.obj [("albumId", .str album_id), ("photos", .arr photos),
      ("nextPageToken", nextPageToken), ("totalCount", .int photos.length)]))

end Klavis.GPhotos

namespace Klavis.GPhotos

/-! ## mcp_servers/google_photos/tools: picker handlers -/

/-- Environment-sourced OAuth values read at import time by tools/base.py and
tools/picker.py (os.getenv returns None when unset; the token URI has a
default). -/
structure PickerEnv where
  refresh_token : Option String
  client_id : Option String
  client_secret : Option String
  token_uri : String
  deriving Repr

/-- The credentials object utils.get_picker_service builds; its five
positional parameters are all supplied by the callers below. -/
structure PickerCredentials where
  token : String
  refresh_token : Option String
  client_id : Option String
  client_secret : Option String
  token_uri : String
  scopes : List String
  deriving Repr

/-- get_picker_service_with_credentials from tools/base.py (tools/picker.py
repeats it): wire the environment values around the caller-provided access
token; all five arguments of get_picker_service are supplied, so the client is
always built. -/
def get_picker_service_with_credentials (env : PickerEnv) (access_token : String) :
    Except PyErr PickerCredentials :=
  .ok { token := access_token, refresh_token := env.refresh_token,
        client_id := env.client_id, client_secret := env.client_secret,
        token_uri := env.token_uri,
        scopes := ["https://www.googleapis.com/auth/photospicker.mediaitems.readonly"] }

/-- format_picker_media_item from utils.py: fixed projection plus exactly one
optional metadata block, photo taking priority over video. -/
def format_picker_media_item (item : JVal) : Except PyErr JVal := do
  let media_file ← pyGetD item "mediaFile" (.obj [])
  let metadata ← pyGetD media_file "mediaFileMetadata" (.obj [])
  let id_ ← pyGet item "id"
  let createTime ← pyGet item "createTime"
  let type_ ← pyGet item "type"
  let filename ← pyGet media_file "filename"
  let mimeType ← pyGet media_file "mimeType"
  let baseUrl ← pyGet media_file "baseUrl"
  let width ← pyGet metadata "width"
  let height ← pyGet metadata "height"
  let cameraMake ← pyGet metadata "cameraMake"
  let cameraModel ← pyGet metadata "cameraModel"
  let base : List (String × JVal) := [("id", id_), ("createTime", createTime),
    ("type", type_), ("filename", filename), ("mimeType", mimeType),
    ("baseUrl", baseUrl), ("width", width), ("height", height),
    ("cameraMake", cameraMake), ("cameraModel", cameraModel)]
  let hasPhoto ← pyIn "photoMetadata" metadata
  if hasPhoto then do
    let photo_meta ← pyGetItem metadata "photoMetadata"
    let focalLength ← pyGet photo_meta "focalLength"
    let apertureFNumber ← pyGet photo_meta "apertureFNumber"
    let isoEquivalent ← pyGet photo_meta "isoEquivalent"
    let exposureTime ← pyGet photo_meta "exposureTime"
    pure (.obj (base ++ [("photoMetadata", JVal.obj [("focalLength", focalLength),
      ("apertureFNumber", apertureFNumber), ("isoEquivalent", isoEquivalent),
      ("exposureTime", exposureTime)])]))
  else do
    let hasVideo ← pyIn "videoMetadata" metadata
    if hasVideo then do
      let video_meta ← pyGetItem metadata "videoMetadata"
      let fps ← pyGet video_meta "fps"
      let processingStatus ← pyGet video_meta "processingStatus"
      pure (.obj (base ++ [("videoMetadata", JVal.obj [("fps", fps),
        ("processingStatus", processingStatus)])]))
    else pure (.obj base)

/-- The except HttpError clause of tools/picker.py (create and get session,
list picked items, delete session): json.loads of the error content with no
inner try, so a decode failure propagates as the decode error; otherwise the
nested message is extracted and the uniform Picker RuntimeError raised. -/
def pickerHttpErrorWrap (m : EffM α) : EffM α :=
  pyTry m (fun e =>
    match e with
    | .httpError status _content json? =>
        (match json? with
         | none => pyRaise (.valueError "Expecting value")
         | some error_detail =>
            match (do
              let err ← pyGetD error_detail "error" (.obj [])
              pyGetD err "message" (.str "Unknown error")) with
            | .error e2 => pyRaise e2
            | .ok msg => pyRaise (.runtimeError ("Google Photos Picker API Error ("
                ++ toString status ++ "): " ++ pyStr msg)))
    | other => pyRaise other)

/-- The except HttpError clause of tools/list_picked_media_items.py and
tools/get_picker_session.py: an inner try around decoding and extraction,
falling back to str(e) as the message. -/
def pickerHttpErrorWrapFallback (m : EffM α) : EffM α :=
  pyTry m (fun e =>
    match e with
    | .httpError status content json? =>
        let message : String :=
          match json? with
          | none => PyErr.str (.httpError status content json?)
          | some error_detail =>
              match (do
                let err ← pyGetD error_detail "error" (.obj [])
                pyGetD err "message" (.str "Unknown error")) with
              | .ok msg => pyStr msg
              | .error _ => PyErr.str (.httpError status content json?)
        pyRaise (.runtimeError ("Google Photos Picker API Error ("
          ++ toString status ++ "): " ++ message))
    | other => pyRaise other)

/-- google_photos_create_picker_session from tools/picker.py. -/
def google_photos_create_picker_session (env : PickerEnv) (o : Oracle)
    (access_token : String) : EffM JVal :=
  pickerHttpErrorWrap (do
    let _service ← liftE (get_picker_service_with_credentials env access_token)
    let response ← googleExecute o
      { method := "POST", endpoint := "picker:sessions.create", body := none }
    let sid ← liftE (pyGet response "id")
    let uri ← liftE (pyGet response "pickerUri")
    let status ← liftE (pyGet response "status")
    pure (.obj [("sessionId", sid), ("pickerUri", uri), ("status", status)]))

/-- google_photos_list_picked_media_items from
tools/list_picked_media_items.py: the page size is only capped above at 100
with min, no lower bound is applied, and an absent or empty page token is
omitted. -/
def google_photos_list_picked_media_items (env : PickerEnv) (o : Oracle)
    (access_token sessionId : String) (pageSize : Int := 50)
    (pageToken : Option String := none) : EffM JVal :=
  pickerHttpErrorWrapFallback (do
    let _service ← liftE (get_picker_service_with_credentials env access_token)
    let params := JVal.obj
      ([("sessionId", .str sessionId), ("pageSize", .int (min pageSize 100))]
        ++ (if optStrTruthy pageToken then [("pageToken", .str (pageToken.getD ""))]
            else []))
    let response ← googleExecute o
      { method := "GET", endpoint := "picker:mediaItems.list", body := some params }
    let items ← liftE (pyGetD response "mediaItems" (.arr []))
    let elems ← liftE (pyIter items)
    let media_items ← liftE (elems.mapM format_picker_media_item)
    let nextPageToken ← liftE (pyGet response "nextPageToken")
    pure (.obj [("sessionId", .str sessionId), ("mediaItems", .arr media_items),
      ("nextPageToken", nextPageToken), ("totalCount", .int media_items.length)]))

end Klavis.GPhotos

/-!
## Theorems

Helper lemmas first, then one theorem per claim (with witnesses and
counterexamples where required).
-/

namespace Klavis

@[simp] theorem EffM.bind_def (m : EffM α) (f : α → EffM β) :
    (m >>= f) =
      (match m.1 with
       | .error e => (.error e, m.2)
       | .ok a => let n := f a; (n.1, m.2 ++ n.2)) := rfl

@[simp] theorem EffM.pure_def (a : α) : (pure a : EffM α) = (.ok a, []) := rfl

theorem snd_liftE_bind (x : Except PyErr α) (k : α → EffM β)
    (hk : ∀ a, (k a).2 = []) : (liftE x >>= k).2 = [] := by
  cases x <;> simp [liftE, EffM.bind_def, hk]

theorem snd_pure (a : α) : (pure a : EffM α).2 = [] := rfl

end Klavis

namespace Klavis.Discord

open Klavis

/-! ### Facts about normalize_emoji -/

theorem matchNameId_digits {tl name digits : List Char}
    (h : matchNameId tl = some (name, digits)) :
    digits ≠ [] ∧ ∀ c ∈ digits, c.isDigit := by
  unfold matchNameId at h
  simp only at h
  by_cases h1 : (tl.takeWhile (fun c => c ≠ ':')).isEmpty
  · rw [if_pos h1] at h
    exact absurd h (by simp)
  · rw [if_neg h1] at h
    by_cases h2 : ((tl.dropWhile (fun c => c ≠ ':')).head? == some ':') = true
    · rw [if_pos h2] at h
      by_cases h3 :
          (((tl.dropWhile (fun c => c ≠ ':')).tail).takeWhile Char.isDigit).isEmpty
      · rw [if_pos h3] at h
        exact absurd h (by simp)
      · rw [if_neg h3] at h
        by_cases h4 :
            ((((tl.dropWhile (fun c => c ≠ ':')).tail).dropWhile Char.isDigit).head?
              == some '>') = true
        · rw [if_pos h4] at h
          simp only [Option.some.injEq, Prod.mk.injEq] at h
          obtain ⟨-, hd⟩ := h
          subst hd
          refine ⟨by simpa [List.isEmpty_iff] using h3, ?_⟩
          intro c hc
          exact List.mem_takeWhile_imp hc
        · rw [if_neg h4] at h
          exact absurd h (by simp)
    · rw [if_neg h2] at h
      exact absurd h (by simp)

theorem matchCustomEmoji_digits {cs name digits : List Char}
    (h : matchCustomEmoji cs = some (name, digits)) :
    digits ≠ [] ∧ ∀ c ∈ digits, c.isDigit := by
  unfold matchCustomEmoji at h
  rcases hs : stripOpenMarker cs with _ | tl
  · rw [hs] at h; simp at h
  · rw [hs] at h
    exact matchNameId_digits (by simpa using h)

theorem normalizeEmojiCore_idem (cs : List Char) :
    normalizeEmojiCore (normalizeEmojiCore cs) = normalizeEmojiCore cs := by
  unfold normalizeEmojiCore
  by_cases hb : ((cs.head? == some '<') && (cs.getLast? == some '>')) = true
  · rw [if_pos hb]
    rcases hm : matchCustomEmoji cs with _ | ⟨name, digits⟩
    · rw [if_pos hb, hm]
    · obtain ⟨hne, hall⟩ := matchCustomEmoji_digits hm
      have hlast : (name ++ ':' :: digits).getLast? ≠ some '>' := by
        rw [List.getLast?_append]
        obtain ⟨d, hd⟩ := Option.isSome_iff_exists.mp
          (List.getLast?_isSome.mpr (List.cons_ne_nil ':' digits))
        rw [hd]
        have hdmem : d ∈ ':' :: digits := List.mem_of_mem_getLast? (by simp [hd])
        show some d ≠ some '>'
        intro heq
        have hdgt : d = '>' := by injection heq
        subst hdgt
        rcases List.mem_cons.mp hdmem with h1 | h2
        · exact absurd h1 (by decide)
        · have := hall _ h2
          exact absurd this (by decide)
      rw [if_neg ?_]
      intro hcontra
      rw [Bool.and_eq_true] at hcontra
      exact hlast (by simpa using hcontra.2)
  · rw [if_neg hb, if_neg hb]

theorem normalize_emoji_idem (e : String) :
    normalize_emoji (normalize_emoji e) = normalize_emoji e := by
  unfold normalize_emoji
  have : (String.mk (normalizeEmojiCore e.toList)).toList
      = normalizeEmojiCore e.toList := rfl
  rw [this, normalizeEmojiCore_idem]

end Klavis.Discord

namespace Klavis.Discord

open Klavis

/-- C7: emoji normalization is idempotent, the wrapped forms reduce to
name:id, the plain Unicode emoji is unchanged, and every input on which the
pattern does not match is returned unchanged. -/
theorem C7_normalize_emoji_spec :
    (∀ e : String, normalize_emoji (normalize_emoji e) = normalize_emoji e) ∧
    normalize_emoji "<:foo:123>" = "foo:123" ∧
    normalize_emoji "<a:bar:456>" = "bar:456" ∧
    normalize_emoji "😀" = "😀" ∧
    (∀ e : String, matchCustomEmoji e.toList = none → normalize_emoji e = e) := by
  refine ⟨normalize_emoji_idem, by decide, by decide, by decide, ?_⟩
  intro e hm
  unfold normalize_emoji normalizeEmojiCore
  rw [hm]
  by_cases hb : ((e.toList.head? == some '<') && (e.toList.getLast? == some '>')) = true
  · rw [if_pos hb]
    rfl
  · rw [if_neg hb]
    rfl

/-- C7 witness: the theorem applied at concrete inputs, discharging the
pattern-failure hypothesis of the last conjunct at the input abc. -/
theorem C7_witness :
    normalize_emoji (normalize_emoji "<:foo:123>") = normalize_emoji "<:foo:123>" ∧
    normalize_emoji "abc" = "abc" :=
  ⟨C7_normalize_emoji_spec.1 "<:foo:123>",
   C7_normalize_emoji_spec.2.2.2.2 "abc" (by decide)⟩

end Klavis.Discord

namespace Klavis.GPhotos

open Klavis

/-- C2: every Library-group handler of the Google Photos server invokes
get_photos_service with only the access token, although the function declares
five required positional parameters, so each call raises TypeError before any
upstream request is issued (total request log empty). -/
theorem C2_library_handlers_fail_before_upstream
    (tok query location pid aid : String) (o : Oracle) :
    GPhotos.get_photo (some tok) o pid
      = (.error (.typeError "get_photos_service() missing required positional arguments: refresh_token, client_id, client_secret, token_uri"), []) ∧
    GPhotos.get_photo_url (some tok) o pid
      = (.error (.typeError "get_photos_service() missing required positional arguments: refresh_token, client_id, client_secret, token_uri"), []) ∧
    GPhotos.list_albums (some tok) o
      = (.error (.typeError "get_photos_service() missing required positional arguments: refresh_token, client_id, client_secret, token_uri"), []) ∧
    GPhotos.get_album (some tok) o aid
      = (.error (.typeError "get_photos_service() missing required positional arguments: refresh_token, client_id, client_secret, token_uri"), []) ∧
    GPhotos.list_album_photos (some tok) o aid
      = (.error (.typeError "get_photos_service() missing required positional arguments: refresh_token, client_id, client_secret, token_uri"), []) ∧
    GPhotos.search_photos (some tok) o query
      = (.error (.typeError "get_photos_service() missing required positional arguments: refresh_token, client_id, client_secret, token_uri"), []) ∧
    GPhotos.search_photos_by_location (some tok) o location
      = (.error (.typeError "get_photos_service() missing required positional arguments: refresh_token, client_id, client_secret, token_uri"), []) :=
  ⟨rfl, rfl, rfl, rfl, rfl, rfl, rfl⟩

/-- C9 counterexample: a tool call arriving with no x-auth-token header does
not fail with an authentication error — the transport sets the context
variable to the empty string, get_auth_token returns that empty token, and the
handler proceeds past authentication; the failure it does hit is the
service-arity TypeError, not the authentication RuntimeError. -/
theorem C9_counterexample_no_token_proceeds :
    GPhotos.get_auth_token (GPhotos.streamableHttpAuthCtx []) = .ok "" ∧
    GPhotos.get_photo (GPhotos.streamableHttpAuthCtx [])
        (fun _ => .networkFailure "unreachable") "p1"
      = (.error (.typeError "get_photos_service() missing required positional arguments: refresh_token, client_id, client_secret, token_uri"), []) :=
  ⟨rfl, rfl⟩

/-- C9 amended: get_auth_token raises the authentication RuntimeError only
when the context variable was never set; the StreamableHTTP transport always
sets it — to the header value, or to the empty string when the header is
absent — so a call with no token proceeds with the empty credential and no
emptiness check is made before an upstream call. -/
theorem C9_auth_context_always_set (headers : List (String × String)) :
    GPhotos.get_auth_token (GPhotos.streamableHttpAuthCtx headers)
      = .ok ((headers.lookup "x-auth-token").getD "") ∧
    GPhotos.get_auth_token none
      = .error (.runtimeError "Authentication token not found in request context") :=
  ⟨rfl, rfl⟩

/-- C1 counterexample: at a concrete upstream 403 carrying the message
Missing Access, the error surfaced by the HttpError clause of get_photo is
the generic format Google Photos API Error (403): Missing Access, and the
result for a 400 with the same body is the identical format with only the
number changed — no 403-specific access-denied or app-created wording
exists. -/
theorem C1_counterexample_403_message_generic :
    (GPhotos.libraryHttpErrorWrap (pyRaise (.httpError 403 "c"
        (some (.obj [("error", .obj [("message", .str "Missing Access")])])))) : EffM JVal)
      = (.error (.runtimeError "Google Photos API Error (403): Missing Access"), []) ∧
    (GPhotos.libraryHttpErrorWrap (pyRaise (.httpError 400 "c"
        (some (.obj [("error", .obj [("message", .str "Missing Access")])])))) : EffM JVal)
      = (.error (.runtimeError "Google Photos API Error (400): Missing Access"), []) :=
  ⟨rfl, rfl⟩

/-- C1 amended: get_photo translates every upstream HttpError through one and
the same generic format — the status number interpolated into Google Photos
API Error followed by the extracted upstream message — uniformly in the
status; there is no 403-specific branch (moreover, by C2 the handler raises
before the upstream call, so the clause is unreachable in the current code). -/
theorem C1_get_photo_http_error_uniform (status : Nat) (content : String)
    (detail msg : JVal)
    (hmsg : (do
        let err ← pyGetD detail "error" (.obj [])
        pyGetD err "message" (.str "Unknown error")) = .ok msg) :
    (GPhotos.libraryHttpErrorWrap (pyRaise (.httpError status content (some detail))) : EffM JVal)
      = (.error (.runtimeError ("Google Photos API Error (" ++ toString status
          ++ "): " ++ pyStr msg)), []) := by
  unfold GPhotos.libraryHttpErrorWrap pyTry pyRaise
  simp only []
  rw [hmsg]
  rfl

/-- C1 witness: the uniform-format theorem applied at the concrete 403. -/
theorem C1_witness :
    (GPhotos.libraryHttpErrorWrap (pyRaise (.httpError 403 "c"
        (some (.obj [("error", .obj [("message", .str "Missing Access")])])))) : EffM JVal)
      = (.error (.runtimeError ("Google Photos API Error (" ++ toString (403 : Nat)
          ++ "): " ++ pyStr (.str "Missing Access"))), []) :=
  C1_get_photo_http_error_uniform 403 "c"
    (.obj [("error", .obj [("message", .str "Missing Access")])])
    (.str "Missing Access") rfl

end Klavis.GPhotos

namespace Klavis

theorem snd_req_bind (m : EffM α) (req : UpstreamReq) (k : α → EffM β)
    (hm : m.2 = [req]) (hk : ∀ a, (k a).2 = []) : (m >>= k).2 = [req] := by
  rw [EffM.bind_def]
  cases h : m.1 <;> simp [hm, hk]

theorem snd_pyTry (m : EffM α) (h : PyErr → EffM α) (hh : ∀ e, (h e).2 = []) :
    (pyTry m h).2 = m.2 := by
  unfold pyTry
  cases hm : m.1 <;> simp [hh]

/-- C3 counterexample: for the upstream 403 response with body
error/message Missing Access, the Discord client raises an error whose text
embeds the whole decoded body (and is further re-wrapped by the generic
except clause of make_request, whose try block encloses the raise); the
carried message is the dict repr, not the extracted inner message Missing
Access. -/
theorem C3_counterexample_discord_body_not_extracted :
    Discord.discordResponseResult "GET" "https://discord.com/api/v10/channels/1" false
        (.response { status := 403, contentTypeJson := true,
                     rawText := "\x7b\"error\": \x7b\"message\": \"Missing Access\"\x7d\x7d",
                     json? := some (.obj [("error", .obj [("message", .str "Missing Access")])]) })
      = .error (.runtimeError ("Unexpected error during API call to GET https://discord.com/api/v10/channels/1: "
          ++ ("Discord API Error (403): "
          ++ pyRepr (.obj [("error", .obj [("message", .str "Missing Access")])])))) ∧
    pyRepr (.obj [("error", .obj [("message", .str "Missing Access")])]) ≠ "Missing Access" :=
  ⟨rfl, by decide⟩

/-- C3 amended: for every response with status at least 400, the Discord
client raises a RuntimeError carrying the status and the full decoded error
body (dict repr when the content type is JSON and parsing succeeds, raw text
otherwise), additionally re-wrapped in the Unexpected-error form because the
Discord-API-Error raise sits inside its own try block; the nested
error/message extraction the claim describes exists only in the Google Photos
picker handlers, whose HttpError clause carries the status and the extracted
inner message — at 403 with body error/message Missing Access the picker
error carries 403 and Missing Access verbatim. -/
theorem C3_upstream_error_translation (method url : String) (ee : Bool)
    (r : HttpResponse) (status : Nat) (content : String) (detail msg : JVal)
    (h400 : 400 ≤ r.status)
    (hmsg : (do
        let err ← pyGetD detail "error" (.obj [])
        pyGetD err "message" (.str "Unknown error")) = .ok msg) :
    Discord.discordResponseResult method url ee (.response r)
      = .error (.runtimeError ("Unexpected error during API call to " ++ method ++ " "
          ++ url ++ ": "
          ++ ("Discord API Error (" ++ toString r.status ++ "): "
              ++ (if r.contentTypeJson then
                    (match r.json? with | some j => pyStr j | none => r.rawText)
                  else r.rawText)))) ∧
    (GPhotos.pickerHttpErrorWrap (pyRaise (.httpError status content (some detail))) : EffM JVal)
      = (.error (.runtimeError ("Google Photos Picker API Error (" ++ toString status
          ++ "): " ++ pyStr msg)), []) := by
  constructor
  · unfold Discord.discordResponseResult
    simp only [if_pos h400]
    rfl
  · unfold GPhotos.pickerHttpErrorWrap pyTry pyRaise
    simp only []
    rw [hmsg]
    rfl

/-- C3 witness: the translation theorem applied at a concrete 403 response. -/
theorem C3_witness :
    Discord.discordResponseResult "GET" "u" false
        (.response { status := 403, contentTypeJson := true, rawText := "t",
                     json? := some (.obj [("error", .obj [("message", .str "Missing Access")])]) })
      = .error (.runtimeError ("Unexpected error during API call to GET u: "
          ++ ("Discord API Error (" ++ toString (403 : Nat) ++ "): "
              ++ (if true then
                    (match (some (JVal.obj [("error", .obj [("message", .str "Missing Access")])]) : Option JVal) with
                     | some j => pyStr j
                     | none => "t")
                  else "t")))) ∧
    (GPhotos.pickerHttpErrorWrap (pyRaise (.httpError 403 "c"
        (some (.obj [("error", .obj [("message", .str "Missing Access")])])))) : EffM JVal)
      = (.error (.runtimeError ("Google Photos Picker API Error (" ++ toString (403 : Nat)
          ++ "): " ++ pyStr (.str "Missing Access"))), []) :=
  C3_upstream_error_translation "GET" "u" false
    { status := 403, contentTypeJson := true, rawText := "t",
      json? := some (.obj [("error", .obj [("message", .str "Missing Access")])]) }
    403 "c" (.obj [("error", .obj [("message", .str "Missing Access")])])
    (.str "Missing Access") (by decide) rfl

end Klavis

namespace Klavis

/-- C4 counterexample: google_photos_list_picked_media_items applies only the
upper cap min(pageSize, 100); with pageSize zero, the upstream request
carries pageSize zero, outside the claimed range [1,100]. -/
theorem C4_counterexample_pageSize_zero_sent :
    (GPhotos.google_photos_list_picked_media_items
        { refresh_token := none, client_id := none, client_secret := none,
          token_uri := "https://oauth2.googleapis.com/token" }
        (fun _ => .response { status := 200, contentTypeJson := true,
                              rawText := "\x7b\x7d", json? := some (.obj []) })
        "tok" "sess" 0 none).2
      = [{ method := "GET", endpoint := "picker:mediaItems.list",
           body := some (.obj [("sessionId", .str "sess"), ("pageSize", .int 0)]) }] ∧
    ¬(1 ≤ (0 : Int)) :=
  ⟨rfl, by decide⟩

/-- C4 amended: list_members clamps its limit into [1,1000] and read_messages
into [1,100] with max 1 (min limit bound) before the upstream call, but
list_picked_media_items only caps the page size above at 100 with min, so
values below 1 are sent upstream unchanged. -/
theorem C4_limit_clamping (auth : Discord.DiscordAuth) (o : Oracle)
    (env : GPhotos.PickerEnv) (sid cid tok sess : String) (lm lr lp : Int) :
    ((Discord.list_members auth o sid lm).2
        = [{ method := "GET",
             endpoint := "/guilds/" ++ sid ++ "/members?limit="
               ++ toString (max 1 (min lm 1000)),
             body := none }]
      ∧ 1 ≤ max 1 (min lm 1000) ∧ max 1 (min lm 1000) ≤ 1000) ∧
    ((Discord.read_messages auth o cid lr).2
        = [{ method := "GET",
             endpoint := "/channels/" ++ cid ++ "/messages?limit="
               ++ toString (max 1 (min lr 100)),
             body := none }]
      ∧ 1 ≤ max 1 (min lr 100) ∧ max 1 (min lr 100) ≤ 100) ∧
    ((GPhotos.google_photos_list_picked_media_items env o tok sess lp none).2
        = [{ method := "GET", endpoint := "picker:mediaItems.list",
             body := some (.obj [("sessionId", .str sess),
               ("pageSize", .int (min lp 100))]) }]
      ∧ min lp 100 ≤ 100) := by
  refine ⟨⟨?_, le_max_left 1 _, max_le (by norm_num) (min_le_right lm 1000)⟩,
          ⟨?_, le_max_left 1 _, max_le (by norm_num) (min_le_right lr 100)⟩,
          ⟨?_, min_le_right lp 100⟩⟩
  · unfold Discord.list_members Discord.discord_make_request
    exact snd_req_bind _ _ _ rfl
      (fun a => snd_liftE_bind _ _ (fun b => snd_liftE_bind _ _ (fun c => rfl)))
  · unfold Discord.read_messages Discord.discord_make_request
    exact snd_req_bind _ _ _ rfl
      (fun a => snd_liftE_bind _ _ (fun b => snd_liftE_bind _ _ (fun c => rfl)))
  · unfold GPhotos.google_photos_list_picked_media_items GPhotos.pickerHttpErrorWrapFallback
    rw [snd_pyTry _ _ (fun e => by cases e <;> rfl)]
    show (GPhotos.googleExecute o _ >>= _).2 = _
    exact snd_req_bind _ _ _ rfl
      (fun a => snd_liftE_bind _ _ (fun b => snd_liftE_bind _ _ (fun c =>
        snd_liftE_bind _ _ (fun d => snd_liftE_bind _ _ (fun g => rfl)))))

/-- C10: the body create_text_channel sends upstream always carries name and
the text-channel type zero; it carries topic exactly when the topic argument
is a truthy string and parent_id exactly when category_id is truthy, so an
optional field supplied as the empty string is omitted just like an absent
one. -/
theorem C10_create_text_channel_body (auth : Discord.DiscordAuth) (o : Oracle)
    (sid nm : String) (topic cat : Option String) :
    (Discord.create_text_channel auth o sid nm topic cat).2
      = [{ method := "POST", endpoint := "/guilds/" ++ sid ++ "/channels",
           body := some (Discord.createTextChannelBody nm topic cat) }] ∧
    (Discord.createTextChannelBody nm topic cat).hasKey "topic" = optStrTruthy topic ∧
    (Discord.createTextChannelBody nm topic cat).hasKey "parent_id" = optStrTruthy cat ∧
    (match Discord.createTextChannelBody nm topic cat with
     | .obj fs => fs.lookup "name" = some (.str nm) ∧ fs.lookup "type" = some (.int 0)
     | _ => False) := by
  refine ⟨?_, ?_, ?_, ?_⟩
  · unfold Discord.create_text_channel Discord.discord_make_request
    exact snd_req_bind _ _ _ rfl
      (fun a => snd_liftE_bind _ _ (fun b => snd_liftE_bind _ _ (fun c =>
        snd_liftE_bind _ _ (fun d => snd_liftE_bind _ _ (fun g => rfl)))))
  · rcases topic with _ | t <;> rcases cat with _ | c
    · rfl
    · by_cases hc : c = "" <;>
        simp [Discord.createTextChannelBody, JVal.hasKey, optStrTruthy, hc]
    · by_cases ht : t = "" <;>
        simp [Discord.createTextChannelBody, JVal.hasKey, optStrTruthy, ht]
    · by_cases ht : t = "" <;> by_cases hc : c = "" <;>
        simp [Discord.createTextChannelBody, JVal.hasKey, optStrTruthy, ht, hc]
  · rcases topic with _ | t <;> rcases cat with _ | c
    · rfl
    · by_cases hc : c = "" <;>
        simp [Discord.createTextChannelBody, JVal.hasKey, optStrTruthy, hc]
    · by_cases ht : t = "" <;>
        simp [Discord.createTextChannelBody, JVal.hasKey, optStrTruthy, ht]
    · by_cases ht : t = "" <;> by_cases hc : c = "" <;>
        simp [Discord.createTextChannelBody, JVal.hasKey, optStrTruthy, ht, hc]
  · rcases topic with _ | t <;> rcases cat with _ | c
    · exact ⟨rfl, rfl⟩
    · by_cases hc : c = "" <;>
        simp [Discord.createTextChannelBody, hc, List.lookup]
    · by_cases ht : t = "" <;>
        simp [Discord.createTextChannelBody, ht, List.lookup]
    · by_cases ht : t = "" <;> by_cases hc : c = "" <;>
        simp [Discord.createTextChannelBody, ht, hc, List.lookup]

end Klavis

namespace Klavis

theorem except_bind_ok {α β : Type} {x : Except PyErr α} {f : α → Except PyErr β}
    {b : β} (h : (x >>= f) = .ok b) : ∃ a, x = .ok a ∧ f a = .ok b := by
  cases x with
  | error e => simp [Bind.bind, Except.bind] at h
  | ok a => exact ⟨a, rfl, by simpa [Bind.bind, Except.bind] using h⟩

/-- C8: a formatted picker media item never carries both metadata keys, and
which one it carries is decided by the metadata block of the upstream item:
the photoMetadata key appears exactly when the upstream metadata has one (an
item with only photoMetadata yields no videoMetadata key), and the
videoMetadata key appears exactly when the upstream metadata has
videoMetadata and no photoMetadata (the vice-versa case). -/
theorem C8_picker_metadata_exclusive (item media_file metadata out : JVal)
    (bp bv : Bool)
    (hmf : pyGetD item "mediaFile" (.obj []) = .ok media_file)
    (hmd : pyGetD media_file "mediaFileMetadata" (.obj []) = .ok metadata)
    (hp : pyIn "photoMetadata" metadata = .ok bp)
    (hv : pyIn "videoMetadata" metadata = .ok bv)
    (hout : GPhotos.format_picker_media_item item = .ok out) :
    (¬(out.hasKey "photoMetadata" = true ∧ out.hasKey "videoMetadata" = true)) ∧
    out.hasKey "photoMetadata" = bp ∧
    out.hasKey "videoMetadata" = (!bp && bv) := by
  unfold GPhotos.format_picker_media_item at hout
  obtain ⟨mf, h1, hout⟩ := except_bind_ok hout
  rw [hmf] at h1
  injection h1 with h1e
  subst h1e
  obtain ⟨md, h2, hout⟩ := except_bind_ok hout
  rw [hmd] at h2
  injection h2 with h2e
  subst h2e
  obtain ⟨v1, -, hout⟩ := except_bind_ok hout
  obtain ⟨v2, -, hout⟩ := except_bind_ok hout
  obtain ⟨v3, -, hout⟩ := except_bind_ok hout
  obtain ⟨v4, -, hout⟩ := except_bind_ok hout
  obtain ⟨v5, -, hout⟩ := except_bind_ok hout
  obtain ⟨v6, -, hout⟩ := except_bind_ok hout
  obtain ⟨v7, -, hout⟩ := except_bind_ok hout
  obtain ⟨v8, -, hout⟩ := except_bind_ok hout
  obtain ⟨v9, -, hout⟩ := except_bind_ok hout
  obtain ⟨v10, -, hout⟩ := except_bind_ok hout
  obtain ⟨bp', h3, hout⟩ := except_bind_ok hout
  rw [hp] at h3
  injection h3 with h3e
  subst h3e
  cases bp with
  | true =>
    simp only [if_pos rfl] at hout
    obtain ⟨pm, -, hout⟩ := except_bind_ok hout
    obtain ⟨w1, -, hout⟩ := except_bind_ok hout
    obtain ⟨w2, -, hout⟩ := except_bind_ok hout
    obtain ⟨w3, -, hout⟩ := except_bind_ok hout
    obtain ⟨w4, -, hout⟩ := except_bind_ok hout
    simp only [pure, Except.pure, Except.ok.injEq] at hout
    subst hout
    exact ⟨by simp [JVal.hasKey], by simp [JVal.hasKey], by simp [JVal.hasKey]⟩
  | false =>
    simp only [Bool.false_eq_true, if_false] at hout
    obtain ⟨bv', h4, hout⟩ := except_bind_ok hout
    rw [hv] at h4
    injection h4 with h4e
    subst h4e
    cases bv with
    | true =>
      simp only [if_pos rfl] at hout
      obtain ⟨vm, -, hout⟩ := except_bind_ok hout
      obtain ⟨w1, -, hout⟩ := except_bind_ok hout
      obtain ⟨w2, -, hout⟩ := except_bind_ok hout
      simp only [pure, Except.pure, Except.ok.injEq] at hout
      subst hout
      exact ⟨by simp [JVal.hasKey], by simp [JVal.hasKey], by simp [JVal.hasKey]⟩
    | false =>
      simp only [Bool.false_eq_true, if_false] at hout
      simp only [pure, Except.pure, Except.ok.injEq] at hout
      subst hout
      exact ⟨by simp [JVal.hasKey], by simp [JVal.hasKey], by simp [JVal.hasKey]⟩

/-- C8 witness: the exclusivity theorem applied to a concrete upstream item
carrying only photoMetadata. -/
theorem C8_witness :
    (¬((JVal.obj [("id", .str "i"), ("createTime", .null), ("type", .str "PHOTO"),
        ("filename", .null), ("mimeType", .null), ("baseUrl", .null),
        ("width", .null), ("height", .null), ("cameraMake", .null),
        ("cameraModel", .null),
        ("photoMetadata", .obj [("focalLength", .null), ("apertureFNumber", .null),
          ("isoEquivalent", .int 100), ("exposureTime", .null)])]).hasKey "photoMetadata" = true
      ∧ (JVal.obj [("id", .str "i"), ("createTime", .null), ("type", .str "PHOTO"),
        ("filename", .null), ("mimeType", .null), ("baseUrl", .null),
        ("width", .null), ("height", .null), ("cameraMake", .null),
        ("cameraModel", .null),
        ("photoMetadata", .obj [("focalLength", .null), ("apertureFNumber", .null),
          ("isoEquivalent", .int 100), ("exposureTime", .null)])]).hasKey "videoMetadata" = true)) ∧
    (JVal.obj [("id", .str "i"), ("createTime", .null), ("type", .str "PHOTO"),
        ("filename", .null), ("mimeType", .null), ("baseUrl", .null),
        ("width", .null), ("height", .null), ("cameraMake", .null),
        ("cameraModel", .null),
        ("photoMetadata", .obj [("focalLength", .null), ("apertureFNumber", .null),
          ("isoEquivalent", .int 100), ("exposureTime", .null)])]).hasKey "photoMetadata" = true ∧
    (JVal.obj [("id", .str "i"), ("createTime", .null), ("type", .str "PHOTO"),
        ("filename", .null), ("mimeType", .null), ("baseUrl", .null),
        ("width", .null), ("height", .null), ("cameraMake", .null),
        ("cameraModel", .null),
        ("photoMetadata", .obj [("focalLength", .null), ("apertureFNumber", .null),
          ("isoEquivalent", .int 100), ("exposureTime", .null)])]).hasKey "videoMetadata"
      = (!true && false) :=
  C8_picker_metadata_exclusive
    (.obj [("id", .str "i"), ("type", .str "PHOTO"),
      ("mediaFile", .obj [("mediaFileMetadata", .obj [("photoMetadata",
        .obj [("isoEquivalent", .int 100)])])])])
    (.obj [("mediaFileMetadata", .obj [("photoMetadata",
      .obj [("isoEquivalent", .int 100)])])])
    (.obj [("photoMetadata", .obj [("isoEquivalent", .int 100)])])
    (.obj [("id", .str "i"), ("createTime", .null), ("type", .str "PHOTO"),
      ("filename", .null), ("mimeType", .null), ("baseUrl", .null),
      ("width", .null), ("height", .null), ("cameraMake", .null),
      ("cameraModel", .null),
      ("photoMetadata", .obj [("focalLength", .null), ("apertureFNumber", .null),
        ("isoEquivalent", .int 100), ("exposureTime", .null)])])
    true false rfl rfl rfl rfl rfl

end Klavis

namespace Klavis.Discord

open Klavis

theorem validate_custom_emoji_log (auth : DiscordAuth) (o : Oracle)
    (cid custom_id : String) :
    (validate_custom_emoji auth o cid custom_id).2.head? = some (channelInfoReq cid) ∧
    ∀ q ∈ (validate_custom_emoji auth o cid custom_id).2, q.method = "GET" := by
  unfold validate_custom_emoji discord_make_request
  simp only [EffM.bind_def]
  cases h1 : discordResponseResult "GET" (auth.api_base ++ ("/channels/" ++ cid)) false
      (o { method := "GET", endpoint := "/channels/" ++ cid, body := none }) with
  | error e =>
    simp [h1, channelInfoReq]
  | ok ch =>
    simp only [h1, liftE]
    cases h2 : pyGet ch "guild_id" with
    | error e2 => simp [h2, channelInfoReq]
    | ok gid =>
      simp only [h2]
      by_cases hg : gid.truthy = false
      · simp [hg, pyRaise, channelInfoReq]
      · simp only [hg, if_false, if_neg hg]
        cases h3 : discordResponseResult "GET"
            (auth.api_base ++ ("/guilds/" ++ pyStr gid ++ "/emojis")) false
            (o { method := "GET", endpoint := "/guilds/" ++ pyStr gid ++ "/emojis",
                 body := none }) with
        | error e3 => simp [h3, channelInfoReq]
        | ok ge =>
          simp only [h3]
          cases h4 : pyIter ge with
          | error e4 => simp [h4, channelInfoReq]
          | ok elems =>
            simp only [h4, liftE]
            cases h5 : elems.mapM (fun e => pyGet e "id") with
            | error e5 => simp [h5, channelInfoReq]
            | ok ids =>
              simp only [h5]
              by_cases h6 : (ids.any fun v => v == JVal.str custom_id) = false
              · simp [h6, pyRaise, channelInfoReq]
              · simp [h6, pyRaise, channelInfoReq]

/-- C5: for every add_reaction call whose emoji normalizes to the custom
name:id form, the first upstream request is the channel fetch; whenever the
custom-emoji validation fails (missing guild id, id not in the guild emoji
list, or a lookup error), the handler returns the structured failure dict
carrying success false, the error text, and the echoed emoji, message and
channel ids, having issued only GET lookups and never the reaction PUT; and a
PUT appears in the request log only when validation succeeded. -/
theorem C5_add_reaction_custom_validation (auth : DiscordAuth) (o : Oracle)
    (cid mid emoji custom_id : String)
    (hc : detectCustomEmoji (normalize_emoji emoji) = some custom_id) :
    (add_reaction auth o cid mid emoji).2.head? = some (channelInfoReq cid) ∧
    (∀ e lg, validate_custom_emoji auth o cid custom_id = (.error e, lg) →
       add_reaction auth o cid mid emoji
         = (.ok (reactionFailure emoji mid cid (PyErr.str e)), lg) ∧
       ∀ q ∈ lg, q.method = "GET") ∧
    ((∃ q ∈ (add_reaction auth o cid mid emoji).2, q.method = "PUT") →
       ∃ lg, validate_custom_emoji auth o cid custom_id = (.ok (), lg)) := by
  obtain ⟨hhead, hget⟩ := validate_custom_emoji_log auth o cid custom_id
  rcases hv : validate_custom_emoji auth o cid custom_id with ⟨res, lg⟩
  rw [hv] at hhead hget
  simp only at hhead hget
  cases res with
  | error e₀ =>
    have hr : add_reaction auth o cid mid emoji
        = (.ok (reactionFailure emoji mid cid (PyErr.str e₀)), lg) := by
      simp only [add_reaction, pyCatchAll, hc, hv]
    refine ⟨?_, ?_, ?_⟩
    · rw [hr]
      exact hhead
    · intro e lg₁ heq
      injection heq with heq1 heq2
      injection heq1 with heq1e
      subst heq1e
      subst heq2
      exact ⟨hr, hget⟩
    · rw [hr]
      rintro ⟨q, hq, hqput⟩
      have hqget := hget q hq
      rw [hqget] at hqput
      exact absurd hqput (by decide)
  | ok u =>
    cases u
    have h2 : (add_reaction auth o cid mid emoji).2
        = lg ++ (attempt_reaction auth o cid mid emoji (normalize_emoji emoji)).2 := by
      simp only [add_reaction, pyCatchAll, hc, hv]
      cases hA : (attempt_reaction auth o cid mid emoji (normalize_emoji emoji)).1 <;>
        simp [hA]
    refine ⟨?_, ?_, ?_⟩
    · rw [h2]
      cases lg with
      | nil => simp at hhead
      | cons a as =>
        simp only [List.cons_append, List.head?_cons]
        simpa using hhead
    · intro e lg₁ heq
      injection heq with h1 h2
      injection h1
    · intro _
      exact ⟨lg, rfl⟩

/-- C5 witness: the validation theorem applied at a concrete custom emoji and
a concrete oracle, discharging the custom-form hypothesis by evaluation. -/
theorem C5_witness :
    (add_reaction { token := "t", api_base := "" } (fun _ => .networkFailure "down")
        "c1" "m1" "<:bad:999>").2.head? = some (channelInfoReq "c1") :=
  (C5_add_reaction_custom_validation { token := "t", api_base := "" }
    (fun _ => .networkFailure "down") "c1" "m1" "<:bad:999>" "999" (by decide)).1

theorem add_multiple_loop_spec (auth : DiscordAuth) (o : Oracle) (cid mid : String)
    (emojis : List String) :
    (add_multiple_loop auth o cid mid emojis).1.1
      = (emojis.filter (fun e =>
          match (add_reaction auth o cid mid e).1 with
          | .ok res => res.success
          | .error _ => false)).map (fun e => { emoji := e }) ∧
    (add_multiple_loop auth o cid mid emojis).1.2
      = (emojis.filter (fun e =>
          !(match (add_reaction auth o cid mid e).1 with
            | .ok res => res.success
            | .error _ => false))).map (fun e =>
          { emoji := e,
            error := match (add_reaction auth o cid mid e).1 with
                     | .ok res => res.error.getD "Unknown error"
                     | .error exc => exc.str }) := by
  induction emojis with
  | nil => exact ⟨rfl, rfl⟩
  | cons e rest ih =>
    obtain ⟨ih1, ih2⟩ := ih
    unfold add_multiple_loop
    cases hr : (add_reaction auth o cid mid e).1 with
    | ok res =>
      by_cases hs : res.success = true
      · simp [hr, hs, List.filter_cons, ih1, ih2]
      · simp [hr, hs, List.filter_cons, ih1, ih2]
    | error exc =>
      simp [hr, List.filter_cons, ih1, ih2]

/-- C6: add_multiple_reactions applies add_reaction to each emoji in turn so
that every emoji lands in exactly one of successful_reactions or
failed_reactions (entries partition the input, so one failure never aborts
the rest), the aggregate success flag holds exactly when failed_reactions is
empty, and on the concrete two-element list whose second emoji fails
custom-emoji validation the result has one successful entry, one failed
entry, and success false. -/
theorem C6_add_multiple_reactions_partition (auth : DiscordAuth) (o : Oracle)
    (cid mid : String) (emojis : List String) :
    ((add_multiple_reactions auth o cid mid emojis).1.successful_reactions.length
        + (add_multiple_reactions auth o cid mid emojis).1.failed_reactions.length
      = emojis.length) ∧
    ((add_multiple_reactions auth o cid mid emojis).1.success = true
      ↔ (add_multiple_reactions auth o cid mid emojis).1.failed_reactions = []) ∧
    ((add_multiple_reactions auth o cid mid emojis).1.successful_reactions
      = (emojis.filter (fun e =>
          match (add_reaction auth o cid mid e).1 with
          | .ok res => res.success
          | .error _ => false)).map (fun e => { emoji := e })) ∧
    ((add_multiple_reactions auth o cid mid emojis).1.failed_reactions
      = (emojis.filter (fun e =>
          !(match (add_reaction auth o cid mid e).1 with
            | .ok res => res.success
            | .error _ => false))).map (fun e =>
          { emoji := e,
            error := match (add_reaction auth o cid mid e).1 with
                     | .ok res => res.error.getD "Unknown error"
                     | .error exc => exc.str })) ∧
    (add_multiple_reactions { token := "t", api_base := "" }
        (fun req =>
          if req.method == "PUT" then
            .response { status := 204, contentTypeJson := false, rawText := "",
                        json? := none }
          else if req.endpoint == "/channels/c1" then
            .response { status := 200, contentTypeJson := true, rawText := "",
                        json? := some (.obj [("guild_id", .str "g1")]) }
          else
            .response { status := 200, contentTypeJson := true, rawText := "",
                        json? := some (.arr []) })
        "c1" "m1" ["😀", "<:bad:999>"]).1
      = { success := false, message_id := "m1", channel_id := "c1",
          successful_reactions := [{ emoji := "😀" }],
          failed_reactions :=
            [{ emoji := "<:bad:999>",
               error := "Custom emoji id 999 not found in guild g1 or bot lacks access to it" }],
          summary := "Added 1 reactions successfully, 1 failed" } := by
  have hconc :
      (add_multiple_reactions { token := "t", api_base := "" }
        (fun req =>
          if req.method == "PUT" then
            .response { status := 204, contentTypeJson := false, rawText := "",
                        json? := none }
          else if req.endpoint == "/channels/c1" then
            .response { status := 200, contentTypeJson := true, rawText := "",
                        json? := some (.obj [("guild_id", .str "g1")]) }
          else
            .response { status := 200, contentTypeJson := true, rawText := "",
                        json? := some (.arr []) })
        "c1" "m1" ["😀", "<:bad:999>"]).1
      = { success := false, message_id := "m1", channel_id := "c1",
          successful_reactions := [{ emoji := "😀" }],
          failed_reactions :=
            [{ emoji := "<:bad:999>",
               error := "Custom emoji id 999 not found in guild g1 or bot lacks access to it" }],
          summary := "Added 1 reactions successfully, 1 failed" } := by decide
  obtain ⟨h1, h2⟩ := add_multiple_loop_spec auth o cid mid emojis
  unfold add_multiple_reactions
  rcases hl : add_multiple_loop auth o cid mid emojis with ⟨⟨results, errors⟩, lg⟩
  rw [hl] at h1 h2
  simp only at h1 h2
  subst h1
  subst h2
  refine ⟨?_, ?_, rfl, rfl, ?_⟩
  · simp only [List.length_map]
    exact (List.length_eq_length_filter_add _).symm
  · simp
  · exact hconc

end Klavis.Discord
